import Mathlib

/-!
# Verification of the aspect-based sentiment analysis pipeline

Shallow embedding of the core pipeline of the Streamlit review-analysis
application (`Pages/2_Analysis.py` and `Pages/3_Report.py`).

External services (the transformer sentiment classifier, nltk sentence
tokenization and part-of-speech tagging, and the spaCy parser/matcher) are
modelled as inputs of the embedded functions: the classifier's raw output is a
`RawPred`, `pos_tag(word_tokenize(text.lower()))` is a parameter of type
`String → List TaggedWord`, and the spaCy matcher stage of the report page is
represented by its output (the ranked list of `MatchTuple`s and the
frequency-ranked problem-word / subject-noun lists).

Python floats are modelled as exact rationals (`ℚ`), Python strings as Lean
`String`s with character-list helpers mirroring `str.upper`, `str.title`,
`str.split`, `str.strip`, `str.lstrip`, `str.replace` and substring
containment.
-/

/-- Python's `str.upper()` (character-wise, as used on ASCII labels). -/
def pyUpper (s : String) : String := ⟨s.data.map Char.toUpper⟩

/-- Python's `str.lower()` (character-wise). -/
def pyLower (s : String) : String := ⟨s.data.map Char.toLower⟩

/-- Whether the character list starts with the given pattern. -/
def listStartsWith : List Char → List Char → Bool
  | _, [] => true
  | [], _ :: _ => false
  | c :: cs, p :: ps => c == p && listStartsWith cs ps

/-- Whether the pattern occurs as a contiguous sublist. -/
def listContainsSub : List Char → List Char → Bool
  | [], p => p.isEmpty
  | c :: cs, p => listStartsWith (c :: cs) p || listContainsSub cs p

/-- Python's `pat in s` substring containment. -/
def strContains (s pat : String) : Bool := listContainsSub s.data pat.data

/-- Python's `s.startswith(pre)`. -/
def pyStartsWith (s pre : String) : Bool := listStartsWith s.data pre.data

/-- Left-to-right replacement of non-overlapping occurrences, as Python's
`str.replace`; the fuel argument (instantiated with the list length) only makes
the recursion structural, each step consumes at least one character. -/
def listReplaceAux (pat repl : List Char) : Nat → List Char → List Char
  | 0, l => l
  | _ + 1, [] => []
  | fuel + 1, c :: cs =>
    if listStartsWith (c :: cs) pat && !pat.isEmpty then
      repl ++ listReplaceAux pat repl fuel (cs.drop (pat.length - 1))
    else c :: listReplaceAux pat repl fuel cs

/-- Python's `s.replace(pat, repl)` (for nonempty `pat`). -/
def pyReplace (s pat repl : String) : String :=
  ⟨listReplaceAux pat.data repl.data s.data.length s.data⟩

/-- One step of Python's `str.title()`: a character is uppercased when the
previous character is not alphabetic, lowercased otherwise. -/
def pyTitleAux : Bool → List Char → List Char
  | _, [] => []
  | prevAlpha, c :: cs =>
    (if c.isAlpha then (if prevAlpha then c.toLower else c.toUpper) else c)
      :: pyTitleAux c.isAlpha cs

/-- Python's `str.title()` (ASCII behaviour). -/
def pyTitle (s : String) : String := ⟨pyTitleAux false s.data⟩

/-- Python's `str.isalpha()`: nonempty and all characters alphabetic. -/
def pyIsAlpha (s : String) : Bool := !s.isEmpty && s.data.all Char.isAlpha

/-- Accumulator step for whitespace splitting. -/
def splitWsAux : List Char → List Char → List String
  | [], cur => if cur.isEmpty then [] else [⟨cur.reverse⟩]
  | c :: cs, cur =>
    if c.isWhitespace then
      (if cur.isEmpty then [] else [⟨cur.reverse⟩]) ++ splitWsAux cs []
    else splitWsAux cs (c :: cur)

/-- Python's no-argument `str.split()`: split on whitespace runs, dropping
empty pieces. -/
def pySplitWs (s : String) : List String := splitWsAux s.data []

/-- Python's `str.strip()`: drop leading and trailing whitespace. -/
def pyStrip (s : String) : String :=
  ⟨((s.data.dropWhile Char.isWhitespace).reverse.dropWhile Char.isWhitespace).reverse⟩

/-! ## `Pages/2_Analysis.py`: label mappings -/

/-- `map_sentiment` (2_Analysis.py, lines 41-49): upper-case the raw label and
test substring containment of `LABEL_0` / `LABEL_1` / `LABEL_2` in order. -/
def map_sentiment (label : String) : String :=
  let label := pyUpper label
  if strContains label "LABEL_0" then "Negative"
  else if strContains label "LABEL_1" then "Neutral"
  else if strContains label "LABEL_2" then "Positive"
  else "Neutral"

/-- `sentiment_to_numerical` (lines 51-52): dictionary lookup with default 0. -/
def sentiment_to_numerical (sentiment : String) : Int :=
  if sentiment = "Positive" then 1
  else if sentiment = "Neutral" then 0
  else if sentiment = "Negative" then -1
  else 0

/-- `numerical_to_sentiment` (lines 54-60). -/
def numerical_to_sentiment (score : ℚ) : String :=
  if score > 1/10 then "Positive"
  else if score < -(1/10) then "Negative"
  else "Neutral"

/-! ## `Pages/2_Analysis.py`: aspect extraction (`extract_aspects_from_sentence`,
lines 62-87)

The external `pos_tag(word_tokenize(text.lower()))` result is the input: a list
of (word, part-of-speech tag) pairs. -/

/-- One (word, POS-tag) pair as produced by `nltk.tag.pos_tag`. -/
structure TaggedWord where
  word : String
  tag : String
deriving DecidableEq

/-- The accumulation loop of `extract_aspects_from_sentence` (lines 69-82):
consecutive alphabetic non-stop-word tokens tagged `N*`/`J*` accumulate into a
running phrase; any other token flushes the phrase (title-cased, joined by
spaces); a trailing phrase is flushed at the end. -/
def extract_core (stop : List String) : List TaggedWord → List String → List String
  | [], cur => if cur.isEmpty then [] else [pyTitle (String.intercalate " " cur)]
  | tw :: rest, cur =>
    if pyStartsWith tw.tag "N" || pyStartsWith tw.tag "J" then
      if pyIsAlpha tw.word && !stop.contains tw.word then
        extract_core stop rest (cur ++ [tw.word])
      else
        (if cur.isEmpty then [] else [pyTitle (String.intercalate " " cur)])
          ++ extract_core stop rest []
    else
      (if cur.isEmpty then [] else [pyTitle (String.intercalate " " cur)])
        ++ extract_core stop rest []

/-- `Counter(filtered)[x]`: multiplicity of `x` in the candidate list. -/
def count_in (l : List String) (x : String) : Nat :=
  (l.filter (fun y => y = x)).length

/-- `Counter(filtered).keys()`: distinct elements in first-seen order. -/
def firstSeenDedupAux : List String → List String → List String
  | [], acc => acc.reverse
  | x :: xs, acc =>
    if acc.contains x then firstSeenDedupAux xs acc
    else firstSeenDedupAux xs (x :: acc)

/-- Distinct elements of a list in first-seen order. -/
def firstSeenDedup (l : List String) : List String := firstSeenDedupAux l []

/-- `sorted(Counter(filtered).keys(), key=lambda x: Counter(filtered)[x],
reverse=True)` (line 86): a stable sort of the distinct candidates by
descending multiplicity. -/
def rank_aspects (filtered : List String) : List String :=
  List.insertionSort (fun a b => count_in filtered b ≤ count_in filtered a)
    (firstSeenDedup filtered)

/-- `extract_aspects_from_sentence` (lines 62-87) applied to the tagged tokens
of the (lower-cased) sentence: run the accumulation loop, keep phrases with
more than one word or more than 2 characters, and return the top 2 ranked
phrases. -/
def extract_aspects_from_sentence (tagged : List TaggedWord) (stop : List String) :
    List String :=
  let potential := extract_core stop tagged []
  let filtered := potential.filter
    (fun a => decide (1 < (pySplitWs a).length) || decide (2 < a.length))
  if filtered.isEmpty then [] else (rank_aspects filtered).take 2

/-! ## `Pages/2_Analysis.py`: `process_reviews` (lines 90-207)

Phase 1 (nltk `sent_tokenize`) and phase 2 (the batched transformer classifier)
are external; their joint result is the input `zipped`, pairing each
`sentence_map` entry `(review idx, review text, sentence)` with the
classifier's prediction for that sentence (the `zip` models the
`if i >= len(sentiment_results): continue` guard of line 159: extra entries on
either side are dropped). -/

/-- One entry of `sentence_map` (line 109). -/
structure SentMapEntry where
  ridx : Nat
  rtext : String
  sentence : String
deriving DecidableEq

/-- One raw classifier prediction `{label, score}` (line 161-163). -/
structure RawPred where
  label : String
  score : ℚ
deriving DecidableEq

/-- One entry of `summary_sentiment_map[idx]` (lines 179/181). -/
structure Obs where
  sentiment : String
  score : ℚ
deriving DecidableEq

/-- One row of the detail table `full_data` (lines 171-178). -/
structure AspectRecord where
  reviewNo : Nat
  reviewText : String
  aspect : String
  aspectSentiment : String
  aspectSentimentScore : ℚ
  aspectContext : String
deriving DecidableEq

/-- One row of the summary table `summary_data` (lines 200-205). The source
dictionary has exactly the keys `Review No.`, `Review Text`, `NPS Score` and
`Final_Sentiment`. -/
structure SummaryRow where
  reviewNo : Nat
  reviewText : String
  npsScore : Option ℚ
  finalSentiment : String
deriving DecidableEq

/-- One input row of the uploaded dataset: the review text and the value of the
external-score cell when it parses as a float (`float(df.loc[idx, nps_col])`,
line 191), `none` when absent or unparseable. -/
structure Row where
  text : String
  nps : Option ℚ
deriving DecidableEq

/-- The first result loop of `process_reviews` (lines 158-181): builds
`full_data` and the flat aggregation pool (the union of the
`summary_sentiment_map` lists, tagged with their review index; the per-review
list is recovered by filtering on the index, which preserves the source's
per-key insertion order). For a sentence with at least one aspect, one
`AspectRecord` and one pool entry are appended per aspect; otherwise a single
pool entry is appended. -/
def build_full_data (posTag : String → List TaggedWord) (stop : List String) :
    List (SentMapEntry × RawPred) → List AspectRecord × List (Nat × Obs)
  | [] => ([], [])
  | (sm, pred) :: rest =>
    let label := map_sentiment pred.label
    let score := pred.score
    let aspects := extract_aspects_from_sentence (posTag sm.sentence) stop
    let acc := build_full_data posTag stop rest
    if aspects.isEmpty then
      (acc.1, (sm.ridx, ⟨label, score⟩) :: acc.2)
    else
      (aspects.map (fun asp =>
          ⟨sm.ridx + 1, sm.rtext, asp, label, score, sm.sentence⟩) ++ acc.1,
       aspects.map (fun _ => (sm.ridx, ⟨label, score⟩)) ++ acc.2)

/-- The `AspectRecord` rows contributed by a single `sentence_map` entry. -/
def recordsFor (posTag : String → List TaggedWord) (stop : List String)
    (e : SentMapEntry × RawPred) : List AspectRecord :=
  (extract_aspects_from_sentence (posTag e.1.sentence) stop).map (fun asp =>
    ⟨e.1.ridx + 1, e.1.rtext, asp, map_sentiment e.2.label, e.2.score, e.1.sentence⟩)

/-- The aggregation-pool entries contributed by a single `sentence_map` entry:
a sentence with `k ≥ 1` aspects contributes `k` copies of its sentence-level
observation, a sentence with no aspects contributes one. -/
def poolFor (posTag : String → List TaggedWord) (stop : List String)
    (e : SentMapEntry × RawPred) : List (Nat × Obs) :=
  let k := (extract_aspects_from_sentence (posTag e.1.sentence) stop).length
  List.replicate (max k 1) (e.1.ridx, ⟨map_sentiment e.2.label, e.2.score⟩)

/-- `model_score` for one review (line 186): mean of numeric label times
confidence over the review's aggregation-pool entries; 0 when there are none. -/
def model_score_of (pool : List (Nat × Obs)) (idx : Nat) : ℚ :=
  let sentiments := (pool.filter (fun e => e.1 = idx)).map Prod.snd
  if sentiments.isEmpty then 0
  else (sentiments.map
    (fun s => (sentiment_to_numerical s.sentiment : ℚ) * s.score)).sum
    / sentiments.length

/-- The external-score cell actually read for a review (lines 189-191): only
when an NPS column is selected, and only when the cell parses as a float. -/
def effective_nps_cell (rows : List Row) (npsSel : Bool) (idx : Nat) : Option ℚ :=
  if npsSel then (rows.get? idx).bind Row.nps else none

/-- `nps_val` (lines 188-197): +1 for a parsed score ≥ 9, -1 for ≤ 6,
0 otherwise and 0 when no score was read. -/
def nps_val_of (cell : Option ℚ) : ℚ :=
  match cell with
  | some v => if 9 ≤ v then 1 else if v ≤ 6 then -1 else 0
  | none => 0

/-- `blended_score` (line 198). -/
def blended_score_of (pool : List (Nat × Obs)) (rows : List Row) (npsSel : Bool)
    (idx : Nat) : ℚ :=
  6/10 * model_score_of pool idx
    + 4/10 * nps_val_of (effective_nps_cell rows npsSel idx)

/-- One summary row (lines 200-205). -/
def summary_row_of (pool : List (Nat × Obs)) (rows : List Row) (npsSel : Bool)
    (idx : Nat) : SummaryRow :=
  { reviewNo := idx + 1
    reviewText := ((rows.get? idx).map Row.text).getD ""
    npsScore := effective_nps_cell rows npsSel idx
    finalSentiment :=
      numerical_to_sentiment (blended_score_of pool rows npsSel idx) }

/-- The second result loop of `process_reviews` (lines 183-205):
`for review_idx in range(total_rows)`, one summary row per input row in input
order. -/
def summary_data_of (pool : List (Nat × Obs)) (rows : List Row) (npsSel : Bool) :
    List SummaryRow :=
  (List.range rows.length).map (summary_row_of pool rows npsSel)

/-- `process_reviews` (line 207 return value): the detail table and the summary
table. -/
def process_reviews (posTag : String → List TaggedWord) (stop : List String)
    (rows : List Row) (npsSel : Bool) (zipped : List (SentMapEntry × RawPred)) :
    List AspectRecord × List SummaryRow :=
  let built := build_full_data posTag stop zipped
  (built.1, summary_data_of built.2 rows npsSel)

/-! ## Supporting lemmas -/

/-- The first result loop is the concatenation of each sentence's contribution:
per-aspect records and per-aspect pool copies for sentences with aspects, a
single pool entry otherwise. -/
theorem build_full_data_eq_flatMap (posTag : String → List TaggedWord)
    (stop : List String) (zipped : List (SentMapEntry × RawPred)) :
    build_full_data posTag stop zipped
      = (zipped.flatMap (recordsFor posTag stop),
         zipped.flatMap (poolFor posTag stop)) := by
  induction zipped with
  | nil => rfl
  | cons e rest ih =>
    obtain ⟨sm, pred⟩ := e
    by_cases h : (extract_aspects_from_sentence (posTag sm.sentence) stop).isEmpty
    · rw [List.isEmpty_iff] at h
      simp [build_full_data, recordsFor, poolFor, ih, h]
    · rw [List.isEmpty_iff] at h
      have hk : 1 ≤ (extract_aspects_from_sentence (posTag sm.sentence) stop).length :=
        List.length_pos.mpr h
      have hmax : max (extract_aspects_from_sentence (posTag sm.sentence) stop).length 1
          = (extract_aspects_from_sentence (posTag sm.sentence) stop).length := by omega
      simp [build_full_data, recordsFor, poolFor, ih, h, hmax, List.map_const']

/-- The summary table's row at a valid index. -/
theorem summary_data_get (pool : List (Nat × Obs)) (rows : List Row)
    (npsSel : Bool) (idx : Nat) (h : idx < rows.length) :
    (summary_data_of pool rows npsSel).get? idx
      = some (summary_row_of pool rows npsSel idx) := by
  unfold summary_data_of
  rw [List.get?_map, List.get?_range h, Option.map_some']

/-! ## Claim C1 -/

/-- C1: for every review, the blended score is exactly
`0.6*model_score + 0.4*nps_val`, and the final sentiment stored in the
review's summary row is Positive exactly when the blended score is > 0.1,
Negative exactly when it is < -0.1 and Neutral otherwise; in particular the
boundary scores 0.1, -0.1 and 0 all classify as Neutral. -/
theorem blended_formula_and_thresholds (pool : List (Nat × Obs)) (rows : List Row)
    (npsSel : Bool) (idx : Nat) (h : idx < rows.length) :
    ((summary_data_of pool rows npsSel).get? idx).map SummaryRow.finalSentiment
        = some (numerical_to_sentiment (blended_score_of pool rows npsSel idx)) ∧
    blended_score_of pool rows npsSel idx
        = 6/10 * model_score_of pool idx
          + 4/10 * nps_val_of (effective_nps_cell rows npsSel idx) ∧
    (numerical_to_sentiment (blended_score_of pool rows npsSel idx) = "Positive"
        ↔ 1/10 < blended_score_of pool rows npsSel idx) ∧
    (numerical_to_sentiment (blended_score_of pool rows npsSel idx) = "Negative"
        ↔ blended_score_of pool rows npsSel idx < -(1/10)) ∧
    (numerical_to_sentiment (blended_score_of pool rows npsSel idx) = "Neutral"
        ↔ -(1/10) ≤ blended_score_of pool rows npsSel idx
          ∧ blended_score_of pool rows npsSel idx ≤ 1/10) ∧
    numerical_to_sentiment (1/10) = "Neutral" ∧
    numerical_to_sentiment (-(1/10)) = "Neutral" ∧
    numerical_to_sentiment 0 = "Neutral" := by
  refine ⟨?_, rfl, ?_, ?_, ?_, ?_, ?_, ?_⟩
  · rw [summary_data_get pool rows npsSel idx h]
    rfl
  · unfold numerical_to_sentiment
    split_ifs with h1 h2
    · exact ⟨fun _ => h1, fun _ => rfl⟩
    · constructor
      · intro hc; exact absurd hc (by decide)
      · intro hc; exact absurd hc h1
    · constructor
      · intro hc; exact absurd hc (by decide)
      · intro hc; exact absurd hc h1
  · unfold numerical_to_sentiment
    split_ifs with h1 h2
    · constructor
      · intro hc; exact absurd hc (by decide)
      · intro hc; linarith
    · exact ⟨fun _ => h2, fun _ => rfl⟩
    · constructor
      · intro hc; exact absurd hc (by decide)
      · intro hc; exact absurd hc h2
  · unfold numerical_to_sentiment
    split_ifs with h1 h2
    · constructor
      · intro hc; exact absurd hc (by decide)
      · intro hc; linarith [hc.2]
    · constructor
      · intro hc; exact absurd hc (by decide)
      · intro hc; linarith [hc.1]
    · constructor
      · intro _; exact ⟨le_of_not_lt h2, le_of_not_lt h1⟩
      · intro _; rfl
  · norm_num [numerical_to_sentiment]
  · norm_num [numerical_to_sentiment]
  · norm_num [numerical_to_sentiment]

/-- Witness for C1 at a concrete one-row dataset. -/
theorem blended_formula_and_thresholds_witness :
    ((summary_data_of [] [⟨"r", none⟩] false).get? 0).map SummaryRow.finalSentiment
        = some (numerical_to_sentiment (blended_score_of [] [⟨"r", none⟩] false 0)) ∧
    blended_score_of [] [⟨"r", none⟩] false 0
        = 6/10 * model_score_of [] 0
          + 4/10 * nps_val_of (effective_nps_cell [⟨"r", none⟩] false 0) ∧
    (numerical_to_sentiment (blended_score_of [] [⟨"r", none⟩] false 0) = "Positive"
        ↔ 1/10 < blended_score_of [] [⟨"r", none⟩] false 0) ∧
    (numerical_to_sentiment (blended_score_of [] [⟨"r", none⟩] false 0) = "Negative"
        ↔ blended_score_of [] [⟨"r", none⟩] false 0 < -(1/10)) ∧
    (numerical_to_sentiment (blended_score_of [] [⟨"r", none⟩] false 0) = "Neutral"
        ↔ -(1/10) ≤ blended_score_of [] [⟨"r", none⟩] false 0
          ∧ blended_score_of [] [⟨"r", none⟩] false 0 ≤ 1/10) ∧
    numerical_to_sentiment (1/10) = "Neutral" ∧
    numerical_to_sentiment (-(1/10)) = "Neutral" ∧
    numerical_to_sentiment 0 = "Neutral" :=
  blended_formula_and_thresholds [] [⟨"r", none⟩] false 0 (by decide)

/-! ## Claim C3 -/

/-- C3: the summary table has exactly one row per input review, in the original
input order (row `i` is the summary of input row `i` and carries review number
`i+1` and the review's text), including reviews whose sentences yielded zero
aspects — the statement holds for every aggregation pool, in particular pools
with no entry for some review. -/
theorem summary_one_row_per_review (pool : List (Nat × Obs)) (rows : List Row)
    (npsSel : Bool) :
    (summary_data_of pool rows npsSel).length = rows.length ∧
    ∀ i, i < rows.length →
      (summary_data_of pool rows npsSel).get? i
          = some (summary_row_of pool rows npsSel i) ∧
      ((summary_data_of pool rows npsSel).get? i).map SummaryRow.reviewNo
          = some (i + 1) ∧
      ((summary_data_of pool rows npsSel).get? i).map SummaryRow.reviewText
          = ((rows.get? i).map Row.text) := by
  constructor
  · simp [summary_data_of]
  · intro i hi
    refine ⟨summary_data_get pool rows npsSel i hi, ?_, ?_⟩
    · rw [summary_data_get pool rows npsSel i hi]; rfl
    · rw [summary_data_get pool rows npsSel i hi]
      have hrow : rows[i]? = some (rows.get ⟨i, hi⟩) := by
        rw [List.getElem?_eq_getElem hi]; rfl
      simp [summary_row_of, hrow]

/-- Witness for C3 on a concrete two-row dataset with an empty pool (both
reviews have zero aspects and zero sentences). -/
theorem summary_one_row_per_review_witness :
    (summary_data_of [] [⟨"a", none⟩, ⟨"b", some 3⟩] true).length = 2 ∧
    (summary_data_of [] [⟨"a", none⟩, ⟨"b", some 3⟩] true).get? 1
        = some (summary_row_of [] [⟨"a", none⟩, ⟨"b", some 3⟩] true 1) := by
  have h := summary_one_row_per_review [] [⟨"a", none⟩, ⟨"b", some 3⟩] true
  exact ⟨h.1, (h.2 1 (by decide)).1⟩

/-! ## Claim C4 -/

/-- Counterexample to C4: a review whose text yields zero sentences (empty
text, empty `zipped`) but whose external satisfaction score is 10 gets blended
score `0.4*1 = 2/5 ≠ 0` and final sentiment Positive, not Neutral — the
external score is *not* ignored for zero-sentence reviews. -/
theorem zero_sentence_review_cex :
    ((process_reviews (fun _ => []) [] [⟨"", some 10⟩] true []).2.get? 0).map
        SummaryRow.finalSentiment = some "Positive" ∧
    blended_score_of (build_full_data (fun _ => []) [] []).2 [⟨"", some 10⟩] true 0
        = 2/5 ∧
    ((2 : ℚ)/5 ≠ 0) ∧ ("Positive" ≠ "Neutral") := by
  have hb : blended_score_of (build_full_data (fun _ => []) [] []).2
      [⟨"", some 10⟩] true 0 = 2/5 := by
    simp [build_full_data, blended_score_of, model_score_of, effective_nps_cell,
      nps_val_of]
    norm_num
  refine ⟨?_, hb, by norm_num, by decide⟩
  have : (process_reviews (fun _ => []) [] [⟨"", some 10⟩] true []).2.get? 0
      = some (summary_row_of [] [⟨"", some 10⟩] true 0) := by
    exact summary_data_get [] [⟨"", some 10⟩] true 0 (by decide)
  rw [this]
  simp only [summary_row_of, Option.map_some']
  have : numerical_to_sentiment
      (blended_score_of [] [⟨"", some 10⟩] true 0) = "Positive" := by
    have hb' : blended_score_of [] [⟨"", some 10⟩] true 0 = 2/5 := hb
    rw [hb']
    norm_num [numerical_to_sentiment]
  rw [this]

/-- C4 as amended: for a review with zero sentences the model score is 0 and
the blended score reduces to `0.4 * nps_val`; the blended score is 0 and the
final sentiment is Neutral exactly in the cases where the external score
contributes nothing (absent, unparseable, or strictly between 6 and 9). -/
theorem zero_sentence_review_amended (pool : List (Nat × Obs)) (rows : List Row)
    (npsSel : Bool) (idx : Nat) (hempty : ∀ e ∈ pool, e.1 ≠ idx) :
    model_score_of pool idx = 0 ∧
    blended_score_of pool rows npsSel idx
      = 4/10 * nps_val_of (effective_nps_cell rows npsSel idx) ∧
    (nps_val_of (effective_nps_cell rows npsSel idx) = 0 →
      blended_score_of pool rows npsSel idx = 0 ∧
      numerical_to_sentiment (blended_score_of pool rows npsSel idx)
        = "Neutral") := by
  have hfilter : pool.filter (fun e => e.1 = idx) = [] := by
    rw [List.filter_eq_nil]
    intro e he
    simpa using hempty e he
  have hms : model_score_of pool idx = 0 := by
    simp [model_score_of, hfilter]
  refine ⟨hms, ?_, ?_⟩
  · rw [blended_score_of, hms]; ring
  · intro hn
    have hb : blended_score_of pool rows npsSel idx = 0 := by
      rw [blended_score_of, hms, hn]; ring
    exact ⟨hb, by rw [hb]; norm_num [numerical_to_sentiment]⟩

/-- Witness for C4 (amended) at a review with no pool entries and an absent
external score. -/
theorem zero_sentence_review_amended_witness :
    model_score_of [(1, ⟨"Positive", 1⟩)] 0 = 0 ∧
    blended_score_of [(1, ⟨"Positive", 1⟩)] [⟨"", none⟩] true 0 = 0 ∧
    numerical_to_sentiment
      (blended_score_of [(1, ⟨"Positive", 1⟩)] [⟨"", none⟩] true 0) = "Neutral" := by
  have h := zero_sentence_review_amended [(1, ⟨"Positive", 1⟩)] [⟨"", none⟩] true 0
    (by decide)
  have hn : nps_val_of (effective_nps_cell [⟨"", none⟩] true 0) = 0 := rfl
  exact ⟨h.1, (h.2.2 hn).1, (h.2.2 hn).2⟩

/-! ## Claim C5 -/

/-- Counterexample to C5: the summary row does not carry the blended numeric
score. Two runs over the same one-review dataset whose classifier confidences
differ (0.1 vs 0.05, giving blended scores 6/100 vs 3/100) produce identical
summary tables: the blended score cannot be present in the row, since the rows
are equal while the blended scores differ. The source row dictionary
(2_Analysis.py lines 200-205) only stores `Review No.`, `Review Text`,
`NPS Score` and `Final_Sentiment`. -/
theorem summary_row_blended_missing_cex :
    (process_reviews (fun _ => []) [] [⟨"r", none⟩] false
        [(⟨0, "r", "s"⟩, ⟨"LABEL_2", 1/10⟩)]).2
      = (process_reviews (fun _ => []) [] [⟨"r", none⟩] false
        [(⟨0, "r", "s"⟩, ⟨"LABEL_2", 1/20⟩)]).2 ∧
    blended_score_of
        (build_full_data (fun _ => []) [] [(⟨0, "r", "s"⟩, ⟨"LABEL_2", 1/10⟩)]).2
        [⟨"r", none⟩] false 0
      ≠ blended_score_of
        (build_full_data (fun _ => []) [] [(⟨0, "r", "s"⟩, ⟨"LABEL_2", 1/20⟩)]).2
        [⟨"r", none⟩] false 0 := by
  have hms : map_sentiment "LABEL_2" = "Positive" := by decide
  have hpool : ∀ q : ℚ,
      (build_full_data (fun _ => []) [] [(⟨0, "r", "s"⟩, ⟨"LABEL_2", q⟩)]).2
        = [(0, ⟨"Positive", q⟩)] := by
    intro q
    simp [build_full_data, extract_aspects_from_sentence, extract_core,
      rank_aspects, firstSeenDedup, firstSeenDedupAux, hms]
  have hmodel : ∀ q : ℚ, model_score_of [(0, ⟨"Positive", q⟩)] 0 = q := by
    intro q
    simp [model_score_of, sentiment_to_numerical]
  have hb : ∀ q : ℚ,
      blended_score_of
        (build_full_data (fun _ => []) [] [(⟨0, "r", "s"⟩, ⟨"LABEL_2", q⟩)]).2
        [⟨"r", none⟩] false 0 = 6/10 * q := by
    intro q
    rw [blended_score_of, hpool, hmodel]
    simp [effective_nps_cell, nps_val_of]
  constructor
  · have hrow : ∀ q : ℚ, -(1/10) ≤ 6/10 * q → 6/10 * q ≤ 1/10 →
        (process_reviews (fun _ => []) [] [⟨"r", none⟩] false
          [(⟨0, "r", "s"⟩, ⟨"LABEL_2", q⟩)]).2
        = [(⟨1, "r", none, "Neutral"⟩ : SummaryRow)] := by
      intro q h1 h2
      have hfs : numerical_to_sentiment
          (blended_score_of [(0, ⟨"Positive", q⟩)] [⟨"r", none⟩] false 0)
          = "Neutral" := by
        have hbq : blended_score_of [(0, ⟨"Positive", q⟩)] [⟨"r", none⟩] false 0
            = 6/10 * q := by
          rw [blended_score_of, hmodel]
          simp [effective_nps_cell, nps_val_of]
        rw [numerical_to_sentiment, hbq, if_neg (by linarith), if_neg (by linarith)]
      show summary_data_of
          (build_full_data (fun _ => []) [] [(⟨0, "r", "s"⟩, ⟨"LABEL_2", q⟩)]).2
          [⟨"r", none⟩] false = _
      rw [hpool]
      show [summary_row_of [(0, ⟨"Positive", q⟩)] [⟨"r", none⟩] false 0] = _
      rw [summary_row_of]
      simp only [hfs]
      rfl
    rw [hrow (1/10) (by norm_num) (by norm_num),
      hrow (1/20) (by norm_num) (by norm_num)]
  · rw [hb, hb]
    norm_num

/-- C5 as amended: every summary row carries exactly the fields review number
(`i+1`), review text, external score (or null) and final sentiment label; the
blended numeric score is computed and used to derive the final label but is not
itself a field of the row. -/
theorem summary_row_fields_amended (pool : List (Nat × Obs)) (rows : List Row)
    (npsSel : Bool) (idx : Nat) (h : idx < rows.length) :
    (summary_data_of pool rows npsSel).get? idx = some
      { reviewNo := idx + 1
        reviewText := ((rows.get? idx).map Row.text).getD ""
        npsScore := effective_nps_cell rows npsSel idx
        finalSentiment :=
          numerical_to_sentiment (blended_score_of pool rows npsSel idx) } :=
  summary_data_get pool rows npsSel idx h

/-- Witness for C5 (amended) at a concrete dataset. -/
theorem summary_row_fields_amended_witness :
    (summary_data_of [] [⟨"r", some 7⟩] true).get? 0 = some
      { reviewNo := 1
        reviewText := ((([⟨"r", some 7⟩] : List Row).get? 0).map Row.text).getD ""
        npsScore := effective_nps_cell [⟨"r", some 7⟩] true 0
        finalSentiment :=
          numerical_to_sentiment (blended_score_of [] [⟨"r", some 7⟩] true 0) } :=
  summary_row_fields_amended [] [⟨"r", some 7⟩] true 0 (by decide)

/-! ## Claim C9 -/

/-- Counterexample to C9: `map_sentiment` tests substring containment, not
(case-insensitive) equality. The raw label `"XLABEL_0"` is not a letter-case
variant of `LABEL_0`/`LABEL_1`/`LABEL_2` (its upper-casing differs from all
three), so the claim requires it to map to Neutral, but the code maps it to
Negative because it *contains* `LABEL_0`. -/
theorem map_sentiment_containment_cex :
    map_sentiment "XLABEL_0" = "Negative" ∧
    pyUpper "XLABEL_0" ≠ "LABEL_0" ∧
    pyUpper "XLABEL_0" ≠ "LABEL_1" ∧
    pyUpper "XLABEL_0" ≠ "LABEL_2" ∧
    "Negative" ≠ "Neutral" := by decide

/-- C9 as amended: the three raw labels map as claimed in any letter case, and
a raw label whose upper-casing contains none of `LABEL_0`/`LABEL_1`/`LABEL_2`
maps to Neutral; but the test is substring containment of the upper-cased
label (checked in the order 0, 1, 2), so any label *containing* `LABEL_0`
maps to Negative. -/
theorem map_sentiment_amended (label : String) :
    (pyUpper label = "LABEL_0" → map_sentiment label = "Negative") ∧
    (pyUpper label = "LABEL_1" → map_sentiment label = "Neutral") ∧
    (pyUpper label = "LABEL_2" → map_sentiment label = "Positive") ∧
    (strContains (pyUpper label) "LABEL_0" = false →
     strContains (pyUpper label) "LABEL_1" = false →
     strContains (pyUpper label) "LABEL_2" = false →
     map_sentiment label = "Neutral") ∧
    (strContains (pyUpper label) "LABEL_0" = true →
     map_sentiment label = "Negative") := by
  refine ⟨fun h => ?_, fun h => ?_, fun h => ?_, fun h0 h1 h2 => ?_, fun h => ?_⟩
  · rw [map_sentiment, h]; decide
  · rw [map_sentiment, h]; decide
  · rw [map_sentiment, h]; decide
  · rw [map_sentiment]; simp only [h0, h1, h2]; rfl
  · rw [map_sentiment]; simp only [h]; rfl

/-- Witness for C9 (amended) at the lower-case raw label `"label_2"`. -/
theorem map_sentiment_amended_witness : map_sentiment "label_2" = "Positive" :=
  (map_sentiment_amended "label_2").2.2.1 (by decide)

/-! ## Claim C8 -/

/-- Elements produced by the dedup pass come from the input list or the
accumulator. -/
theorem firstSeenDedupAux_subset :
    ∀ (l acc : List String) (x : String),
      x ∈ firstSeenDedupAux l acc → x ∈ l ∨ x ∈ acc := by
  intro l
  induction l with
  | nil =>
    intro acc x hx
    right
    rw [firstSeenDedupAux] at hx
    exact (List.mem_reverse).mp hx
  | cons y ys ih =>
    intro acc x hx
    rw [firstSeenDedupAux] at hx
    by_cases hc : acc.contains y
    · rw [if_pos hc] at hx
      rcases ih acc x hx with h | h
      · left; exact List.mem_cons_of_mem _ h
      · right; exact h
    · rw [if_neg hc] at hx
      rcases ih (y :: acc) x hx with h | h
      · left; exact List.mem_cons_of_mem _ h
      · rcases List.mem_cons.mp h with h | h
        · left; rw [h]; exact List.mem_cons_self _ _
        · right; exact h

/-- C8: the aspect extractor returns at most 2 phrases, and every returned
phrase has more than one word or more than 2 characters (so it never returns a
phrase that is both a single word and of length ≤ 2). -/
theorem extract_aspects_bounds (tagged : List TaggedWord) (stop : List String) :
    (extract_aspects_from_sentence tagged stop).length ≤ 2 ∧
    ∀ p ∈ extract_aspects_from_sentence tagged stop,
      1 < (pySplitWs p).length ∨ 2 < p.length := by
  unfold extract_aspects_from_sentence
  by_cases hf : ((extract_core stop tagged []).filter
      (fun a => decide (1 < (pySplitWs a).length) || decide (2 < a.length))).isEmpty
  · simp [hf]
  · simp only [hf, Bool.false_eq_true, if_false]
    constructor
    · rw [List.length_take]
      exact min_le_left _ _
    · intro p hp
      have h1 : p ∈ rank_aspects ((extract_core stop tagged []).filter
          (fun a => decide (1 < (pySplitWs a).length) || decide (2 < a.length))) :=
        List.take_subset 2 _ hp
      have h2 : p ∈ firstSeenDedup ((extract_core stop tagged []).filter
          (fun a => decide (1 < (pySplitWs a).length) || decide (2 < a.length))) :=
        ((List.perm_insertionSort _ _).mem_iff).mp h1
      have h3 := firstSeenDedupAux_subset _ [] p h2
      simp only [List.not_mem_nil, or_false] at h3
      have h4 := List.of_mem_filter h3
      simpa using h4

/-- Witness for C8 on a concrete two-token sentence yielding the single phrase
`"Good Food"`. -/
theorem extract_aspects_bounds_witness :
    (extract_aspects_from_sentence [⟨"good", "JJ"⟩, ⟨"food", "NN"⟩] []).length ≤ 2 ∧
    (1 < (pySplitWs "Good Food").length ∨ 2 < ("Good Food" : String).length) :=
  ⟨(extract_aspects_bounds [⟨"good", "JJ"⟩, ⟨"food", "NN"⟩] []).1,
   (extract_aspects_bounds [⟨"good", "JJ"⟩, ⟨"food", "NN"⟩] []).2 "Good Food"
     (by decide)⟩

/-! ## Claim C2 -/

/-- The per-review model score as claim C2 words it: the mean over a list of
sentence sentiment observations of (numeric label × confidence score), 0 for
an empty list. Stated from the claim for comparison with the source's
`model_score_of` (which has the same body but is applied to the review's
aggregation pool, a different observation list). -/
def spec_model_score (obs : List Obs) : ℚ :=
  if obs.isEmpty then 0
  else (obs.map (fun o => (sentiment_to_numerical o.sentiment : ℚ) * o.score)).sum
    / obs.length

/-- Counterexample to C2: a review with two sentences — sentence "A" is
Positive with confidence 1 and yields 2 aspects, sentence "B" is Negative with
confidence 1 and yields none. One observation per sentence would give mean
`(1 - 1)/2 = 0`, but the code enters sentence A's observation twice (once per
aspect) and computes `(1 + 1 - 1)/3 = 1/3`. -/
theorem model_score_per_sentence_cex :
    model_score_of
      (build_full_data
        (fun s => if s = "A"
          then [⟨"food", "NN"⟩, ⟨"is", "VBZ"⟩, ⟨"service", "NN"⟩] else []) []
        [(⟨0, "r", "A"⟩, ⟨"LABEL_2", 1⟩), (⟨0, "r", "B"⟩, ⟨"LABEL_0", 1⟩)]).2 0
      = 1/3 ∧
    spec_model_score [⟨map_sentiment "LABEL_2", 1⟩, ⟨map_sentiment "LABEL_0", 1⟩]
      = 0 ∧
    (1 : ℚ)/3 ≠ 0 := by
  have hasp : extract_aspects_from_sentence
      [⟨"food", "NN"⟩, ⟨"is", "VBZ"⟩, ⟨"service", "NN"⟩] [] = ["Food", "Service"] := by
    decide
  have hpos : map_sentiment "LABEL_2" = "Positive" := by decide
  have hneg : map_sentiment "LABEL_0" = "Negative" := by decide
  have hB : extract_aspects_from_sentence ([] : List TaggedWord) [] = [] := rfl
  have hpool : (build_full_data
      (fun s => if s = "A"
        then [⟨"food", "NN"⟩, ⟨"is", "VBZ"⟩, ⟨"service", "NN"⟩] else []) []
      [(⟨0, "r", "A"⟩, ⟨"LABEL_2", 1⟩), (⟨0, "r", "B"⟩, ⟨"LABEL_0", 1⟩)]).2
      = [(0, ⟨"Positive", 1⟩), (0, ⟨"Positive", 1⟩), (0, ⟨"Negative", 1⟩)] := by
    simp [build_full_data, hasp, hpos, hneg, hB]
  refine ⟨?_, ?_, by norm_num⟩
  · rw [hpool]
    simp [model_score_of, sentiment_to_numerical]
  · rw [hpos, hneg]
    simp [spec_model_score, sentiment_to_numerical]

/-- C2 as amended: the per-review model score is the mean of
(numeric label × confidence) over the review's *aggregation-pool* entries,
where a sentence yielding `k ≥ 1` aspects contributes `k` copies of its
sentence-level observation and a sentence yielding none contributes one copy
(`poolFor`); a review with no entries scores 0 (the `spec_model_score` mean of
an empty list). -/
theorem model_score_pool_mean (posTag : String → List TaggedWord)
    (stop : List String) (zipped : List (SentMapEntry × RawPred)) (idx : Nat) :
    model_score_of (build_full_data posTag stop zipped).2 idx
      = spec_model_score
          (((zipped.flatMap (poolFor posTag stop)).filter
            (fun e => e.1 = idx)).map Prod.snd) := by
  have h := build_full_data_eq_flatMap posTag stop zipped
  rw [show (build_full_data posTag stop zipped).2
      = zipped.flatMap (poolFor posTag stop) by rw [h]]
  rfl

/-! ## Claim C10 -/

/-- C10: the detail table and the aggregation pool are the concatenation of
per-sentence contributions, and for every sentence with `k ≥ 1` extracted
aspects all `k` of its `AspectRecord` rows carry the identical sentence-level
sentiment label and confidence score — the whole sentence's classification
result — and the same sentence-level observation is entered `k` times into the
review's aggregation pool. -/
theorem aspect_records_share_sentence_classification
    (posTag : String → List TaggedWord) (stop : List String)
    (zipped : List (SentMapEntry × RawPred)) :
    (build_full_data posTag stop zipped).1
        = zipped.flatMap (recordsFor posTag stop) ∧
    (build_full_data posTag stop zipped).2
        = zipped.flatMap (poolFor posTag stop) ∧
    ∀ e ∈ zipped,
      1 ≤ (extract_aspects_from_sentence (posTag e.1.sentence) stop).length →
      ((recordsFor posTag stop e).length
          = (extract_aspects_from_sentence (posTag e.1.sentence) stop).length ∧
       (∀ r ∈ recordsFor posTag stop e,
          r.aspectSentiment = map_sentiment e.2.label ∧
          r.aspectSentimentScore = e.2.score) ∧
       poolFor posTag stop e
          = List.replicate
              (extract_aspects_from_sentence (posTag e.1.sentence) stop).length
              (e.1.ridx, ⟨map_sentiment e.2.label, e.2.score⟩)) := by
  have h := build_full_data_eq_flatMap posTag stop zipped
  refine ⟨by rw [h], by rw [h], ?_⟩
  intro e _ hk
  refine ⟨by simp [recordsFor], ?_, ?_⟩
  · intro r hr
    rw [recordsFor, List.mem_map] at hr
    obtain ⟨asp, _, rfl⟩ := hr
    exact ⟨rfl, rfl⟩
  · rw [poolFor]
    have : max (extract_aspects_from_sentence (posTag e.1.sentence) stop).length 1
        = (extract_aspects_from_sentence (posTag e.1.sentence) stop).length := by
      omega
    rw [this]

/-- Witness for C10 at a concrete sentence with two aspects. -/
theorem aspect_records_share_sentence_classification_witness :
    poolFor (fun _ => [⟨"food", "NN"⟩, ⟨"is", "VBZ"⟩, ⟨"service", "NN"⟩]) []
        (⟨0, "r", "s"⟩, ⟨"LABEL_0", 1⟩)
      = List.replicate
          (extract_aspects_from_sentence
            ((fun (_ : String) => [⟨"food", "NN"⟩, ⟨"is", "VBZ"⟩, ⟨"service", "NN"⟩])
              (⟨0, "r", "s"⟩ : SentMapEntry).sentence) []).length
          ((⟨0, "r", "s"⟩ : SentMapEntry).ridx,
            ⟨map_sentiment (⟨"LABEL_0", 1⟩ : RawPred).label,
             (⟨"LABEL_0", 1⟩ : RawPred).score⟩) :=
  ((aspect_records_share_sentence_classification
      (fun _ => [⟨"food", "NN"⟩, ⟨"is", "VBZ"⟩, ⟨"service", "NN"⟩]) []
      [(⟨0, "r", "s"⟩, ⟨"LABEL_0", 1⟩)]).2.2
    (⟨0, "r", "s"⟩, ⟨"LABEL_0", 1⟩) (List.mem_singleton.mpr rfl) (by decide)).2.2

/-! ## `Pages/3_Report.py`: the narrative synthesizer
(`generate_dynamic_content_universal`, lines 185-453)

The spaCy processing of the concatenated negative contexts (lines 194-294) is
an external linguistic service; its results are inputs of the embedded stage:
`sortedPatterns` is `identified_patterns.most_common()` (the ranked list of
match tuples, every tuple's category being a `PROBLEM_CATEGORIES` key by
construction), `problemWords` is `problem_words_in_context` and `subjectNouns`
is `potential_subject_nouns` (lines 200-211). Randomness (`random.choice`) is
modelled by a stream of natural-number draws. -/

/-- One element of `identified_patterns` (line 290): (category, outcome-key,
problem adjective, problem noun, cause-or-effect noun, cause-or-effect type),
the optional parts being `None`-able in the source. -/
structure MatchTuple where
  category : String
  key : String
  adj : Option String
  noun : Option String
  cen : Option String
  ctype : Option String
deriving DecidableEq

/-- One entry of a category's `recommendation_phrases` list: the optional
outcome-key, the template string and the filler-phrase choices. -/
structure RecPhrase where
  key : Option String
  template : String
  actions : List String
deriving DecidableEq

/-- The parts of one `PROBLEM_CATEGORIES` entry consumed by the narrative
synthesizer: `analysis_themes` and `recommendation_phrases`. The `keywords`
and `spacy_patterns` fields are consumed only by the external spaCy matching
stage and therefore have no counterpart in the embedding. -/
structure CategoryData where
  analysis_themes : List (String × String)
  recommendation_phrases : List RecPhrase
deriving DecidableEq

/-- `ACTION_VERBS` (lines 47-55). -/
def ACTION_VERBS : List String :=
  ["investigate", "optimize", "improve", "review", "refine", "streamline",
   "update", "train", "standardize", "enhance", "address", "resolve",
   "evaluate", "reassess", "develop", "implement", "monitor", "adjust",
   "simplify", "clarify", "redesign", "ensure", "expand", "prioritize",
   "fix", "resolve", "reduce", "diversify", "audit", "restructure", "allocate",
   "reengineer", "communicate",
   "upgrade", "provide", "strengthen", "strategize", "debug", "test", "rework",
   "educate", "analyse", "assess",
   "innovate", "strategize", "cultivate"]

/-- `UNIVERSAL_PROBLEMS` (lines 35-45). -/
def UNIVERSAL_PROBLEMS : List String :=
  ["bug", "error", "crash", "glitch", "issue", "problem", "fee", "price",
   "delay", "size", "variety", "cost", "speed", "instability", "wait",
   "interface",
   "navigation", "design", "staff", "support", "team", "food", "product",
   "feature",
   "selection", "portions", "instructions", "documentation", "layout",
   "service", "response_time",
   "system", "app", "software", "processes", "infrastructure", "codebase",
   "server",
   "features", "value", "tiers", "workflow", "onboarding", "training",
   "protocols", "time", "quality",
   "internet", "network", "data", "storage", "resources", "updates",
   "communication", "transparency",
   "performance", "usability", "clarity", "reliability", "maintenance",
   "billing", "security",
   "experience", "content", "tool", "environment", "resources", "management"]

/-- The `performance_efficiency` category (lines 58-83). -/
def performance_efficiency_cat : CategoryData where
  analysis_themes :=
    [("performance_cause", "Users consistently report **{aspect_name}** performance being **{problem_adj}**, often attributed to underlying **{cause_or_effect_noun}**."),
     ("problem_effect", "A prevalent concern is the **{problem_noun}** in **{aspect_name}** leading to **{cause_or_effect_noun}**, significantly impacting user experience."),
     ("simple_adj_noun", "Feedback points to **{aspect_name}** suffering from a **{problem_adj} {problem_noun}**."),
     ("simple_noun_adj", "The **{aspect_name}**\x27s **{problem_noun}** is frequently described as **{problem_adj}**, affecting overall **{aspect_name}** efficiency."),
     ("general", "Users highlight general performance issues with **{aspect_name}**, describing it as **{problem_adj}**.")]
  recommendation_phrases :=
    [⟨some "performance_cause", "1. **{fix_verb}** the **{cause_or_effect_noun}** identified as the root cause for **{aspect_name}**\x27s **{problem_adj}** performance.", ["optimizing code", "upgrading infrastructure", "improving network stability"]⟩,
     ⟨some "problem_effect", "1. Implement immediate **{fix_verb}** for the **{problem_noun}** in **{aspect_name}** to prevent it from **{cause_or_effect_verb} {cause_or_effect_noun}**.", ["debugging crashes", "stabilizing glitches", "fixing errors"]⟩,
     ⟨some "simple_adj_noun", "1. Prioritize **{fix_verb}** the **{problem_noun}** of **{aspect_name}** to enhance its **{problem_adj}** aspects and boost overall **{aspect_name}** reliability.", ["improving response times", "streamlining processes", "enhancing stability"]⟩,
     ⟨some "simple_noun_adj", "1. Conduct a deep dive to **{fix_verb}** the underlying causes behind **{aspect_name}**\x27s **{problem_adj} {problem_noun}**.", ["investigate bottlenecks", "address resource consumption", "resolve system conflicts"]⟩,
     ⟨none, "2. **{fix_verb}** overall **{area_of_focus}** for **{aspect_name}** through continuous monitoring, load testing, and iterative improvements.", ["enhance", "ensure", "monitor"]⟩,
     ⟨none, "3. **{fix_verb}** resource allocation for **{aspect_name}**\x27s development and testing to prevent future performance bottlenecks.", ["allocate more", "increase funding", "review current"]⟩,
     ⟨none, "4. **{fix_verb}** a clear communication strategy regarding performance improvements and system stability for users.", ["establish", "maintain", "promote"]⟩]

/-- The `cost_value` category (lines 85-107). -/
def cost_value_cat : CategoryData where
  analysis_themes :=
    [("simple_noun_adj", "The **{aspect_name}** is frequently criticized for its **{problem_noun}** being **{problem_adj}**, leading to user dissatisfaction."),
     ("cost_value_comparison", "Many users find the **{problem_noun}** associated with **{aspect_name}** to be **{problem_adj}**, especially when considering the **{cause_or_effect_noun}** provided."),
     ("lack_of_value", "Feedback highlights a **{problem_adj}** perception of **{aspect_name}** due to a **{problem_noun}** relative to the **{cause_or_effect_noun}**."),
     ("general", "Users perceive **{aspect_name}** as **{problem_adj}**, indicating overall cost concerns and a potential mismatch with expectations.")]
  recommendation_phrases :=
    [⟨some "cost_value_comparison", "1. **{fix_verb}** the **{problem_noun}** of **{aspect_name}** by **{random_action_1}** to better align with the perceived **{cause_or_effect_noun}**.", ["adjusting pricing tiers", "bundling more features", "revising subscription models"]⟩,
     ⟨some "lack_of_value", "1. **{fix_verb}** the **{area_of_focus}** of **{aspect_name}** to justify its **{problem_noun}**, focusing on **{cause_or_effect_noun}** as a key differentiator.", ["enhancing premium features", "improving service inclusions", "clarifying benefits"]⟩,
     ⟨some "simple_noun_adj", "1. **{fix_verb}** the **{problem_noun}** structure of **{aspect_name}** to address user concerns about its **{problem_adj}** nature.", ["revising the pricing model", "offering more flexible plans", "introducing tiered options"]⟩,
     ⟨none, "2. **{fix_verb}** a comprehensive competitive analysis of **{aspect_name}**\x27s pricing to ensure market alignment and perceived fairness.", ["conduct", "perform", "review"]⟩,
     ⟨none, "3. **{fix_verb}** the communication around **{aspect_name}**\x27s value proposition to clearly articulate benefits against its cost.", ["clarify", "strengthen", "refine"]⟩,
     ⟨none, "4. **{fix_verb}** loyalty programs or discounts to enhance long-term **{area_of_focus}** for existing users and attract new ones.", ["introduce", "expand", "evaluate"]⟩]

/-- The `usability_complexity` category (lines 109-131). -/
def usability_complexity_cat : CategoryData where
  analysis_themes :=
    [("simple_noun_adj", "The **{problem_noun}** within **{aspect_name}** is often described as **{problem_adj}**, causing frustration for users."),
     ("usability_cause", "Users report a **{problem_adj}** experience when interacting with **{aspect_name}**, primarily due to the **{cause_or_effect_noun}**."),
     ("simple_adj_noun", "Feedback highlights **{aspect_name}** having **{problem_adj} {problem_noun}**, making it challenging to use."),
     ("general", "Many users find **{aspect_name}** to be **{problem_adj}**, hindering their overall experience and adoption.")]
  recommendation_phrases :=
    [⟨some "usability_cause", "1. **{fix_verb}** the **{problem_noun}** of **{aspect_name}** by simplifying the **{cause_or_effect_noun}** to improve **{area_of_focus}**.", ["redesigning workflows", "streamlining navigation", "clarifying instructions"]⟩,
     ⟨some "simple_noun_adj", "1. **{fix_verb}** the **{problem_noun}** design of **{aspect_name}** to make it less **{problem_adj}** and more intuitive.", ["simplify the interface", "refine the layout", "re-engineer the user flow"]⟩,
     ⟨some "simple_adj_noun", "1. **{fix_verb}** clarity in **{aspect_name}**\x27s **{problem_noun}** to reduce user frustration caused by its **{problem_adj}** nature.", ["enhance user guides", "ensure clear labels", "improve error messages"]⟩,
     ⟨none, "2. **{fix_verb}** user testing and feedback loops to continuously improve the **{area_of_focus}** of **{aspect_name}**.", ["implement A/B testing", "strengthen usability studies", "expand beta programs"]⟩,
     ⟨none, "3. **{fix_verb}** comprehensive onboarding and in-app guidance to help users navigate **{aspect_name}** effectively.", ["develop interactive tutorials", "provide contextual help", "update documentation"]⟩,
     ⟨none, "4. **{fix_verb}** consistent design principles across **{aspect_name}** to reduce complexity and enhance user familiarity.", ["establish UX guidelines", "maintain design consistency", "enforce UI standards"]⟩]

/-- The `service_quality` category (lines 133-156). -/
def service_quality_cat : CategoryData where
  analysis_themes :=
    [("simple_noun_adj", "Concerns are consistently raised about the **{problem_noun}** of **{aspect_name}** being **{problem_adj}**."),
     ("simple_adj_noun", "Users frequently highlight **{aspect_name}**\x27s **{problem_adj} {problem_noun}** as a major issue, impacting their satisfaction."),
     ("service_cause", "Users frequently report **{problem_adj}** interactions with **{aspect_name}**, often stemming from **{cause_or_effect_noun}**."),
     ("general", "Feedback indicates **{aspect_name}** provides **{problem_adj}** service overall, suggesting systemic issues.")]
  recommendation_phrases :=
    [⟨some "service_cause", "1. **{fix_verb}** **{aspect_name}**\x27s **{problem_noun}** by **{random_action_1}** to address the identified **{cause_or_effect_noun}**.", ["enhancing staff training", "increasing team size", "improving communication tools"]⟩,
     ⟨some "simple_noun_adj", "1. **{fix_verb}** the **{problem_noun}** interactions to improve **{aspect_name}**\x27s overall **{problem_adj}** service quality.", ["standardize protocols", "provide ongoing training", "implement quality control checks"]⟩,
     ⟨some "simple_adj_noun", "1. **{fix_verb}** the **{problem_adj} {problem_noun}** in **{aspect_name}** by **{random_action_1}** to boost user satisfaction.", ["optimizing response times", "improving communication channels", "streamlining support workflows"]⟩,
     ⟨none, "2. **{fix_verb}** a robust feedback system for **{aspect_name}**\x27s customer interactions to ensure continuous **{area_of_focus}**.", ["implement", "strengthen", "establish"]⟩,
     ⟨none, "3. **{fix_verb}** the empowerment of **{aspect_name}** staff to resolve issues efficiently and professionally, reducing the need for escalations.", ["enhance", "promote", "support"]⟩,
     ⟨none, "4. **{fix_verb}** communication with users about expected **{area_of_focus}** and any service improvements.", ["transparent", "clear", "proactive"]⟩]

/-- The `product_content_quality` category (lines 158-181). -/
def product_content_quality_cat : CategoryData where
  analysis_themes :=
    [("simple_noun_adj", "Disappointment is frequently expressed regarding the **{problem_noun}** of **{aspect_name}** as it\x27s often described as **{problem_adj}**, impacting user satisfaction."),
     ("simple_adj_noun", "The overall quality of **{aspect_name}** is frequently criticized for its **{problem_adj} {problem_noun}**."),
     ("lack_of_variety", "Users are dissatisfied with **{aspect_name}**\x27s offerings, citing a lack of variety in **{cause_or_effect_noun}**."),
     ("general", "Feedback consistently rates **{aspect_name}** as **{problem_adj}**, indicating a fundamental quality issue that needs addressing.")]
  recommendation_phrases :=
    [⟨some "lack_of_variety", "1. **{fix_verb}** the **{area_of_focus}** of **{aspect_name}** by **{random_action_1}** to address the perceived **{problem_adj}** selection.", ["expanding offerings", "diversifying content sources", "introducing new features"]⟩,
     ⟨some "simple_noun_adj", "1. **{fix_verb}** the **{problem_noun}** quality of **{aspect_name}** to resolve its **{problem_adj}** characteristics.", ["implementing stricter QA", "refining content creation processes", "improving manufacturing standards"]⟩,
     ⟨some "simple_adj_noun", "1. **{fix_verb}** the **{problem_adj} {problem_noun}** in **{aspect_name}** by **{random_action_1}** to meet user expectations.", ["ensuring consistency", "improving accuracy", "fixing defects"]⟩,
     ⟨none, "2. **{fix_verb}** continuous quality assurance processes for **{aspect_name}** to maintain high standards and address bugs promptly.", ["establish", "strengthen", "audit"]⟩,
     ⟨none, "3. **{fix_verb}** user feedback on **{aspect_name}**\x27s **{area_of_focus}** to guide future product enhancements and content development.", ["collect", "analyze", "integrate"]⟩,
     ⟨none, "4. **{fix_verb}** updates on new features or content additions to keep users informed and engaged with **{aspect_name}**.", ["regularly communicate", "proactively announce", "showcase"]⟩]

/-- `PROBLEM_CATEGORIES` (lines 57-182), restricted to the fields used by the
narrative synthesizer, in source (dictionary insertion) order. -/
def PROBLEM_CATEGORIES : List (String × CategoryData) :=
  [("performance_efficiency", performance_efficiency_cat),
   ("cost_value", cost_value_cat),
   ("usability_complexity", usability_complexity_cat),
   ("service_quality", service_quality_cat),
   ("product_content_quality", product_content_quality_cat)]

/-! ## The narrative synthesizer's computation -/

/-- `random.choice` with the random draw supplied as a natural number: pick
index `r % len` (total on nonempty lists; the default is never reached for
the nonempty constant vocabularies it is applied to). -/
def py_random_choice {α : Type} (r : Nat) (l : List α) (d : α) : α :=
  l.getD (r % l.length) d

/-- Python truthiness of an optional string (`None` and `""` are falsy). -/
def py_truthy : Option String → Bool
  | some s => !s.isEmpty
  | none => false

/-- `problem_adj if problem_adj else "unspecified negative"` (line 316). -/
def adj_or_default : Option String → String
  | some a => if a.isEmpty then "unspecified negative" else a
  | none => "unspecified negative"

/-- `problem_noun if problem_noun else "issue"` (line 317). -/
def noun_or_default : Option String → String
  | some n => if n.isEmpty then "issue" else n
  | none => "issue"

/-- `cause_or_effect_noun if ... else "general factors"` (line 318). -/
def cen_or_default : Option String → String
  | some c => if c.isEmpty then "general factors" else c
  | none => "general factors"

/-- `"leads to" if extracted_type == "effect" else "stems from"` (line 319). -/
def cev_str (t : Option String) : String :=
  if t = some "effect" then "leads to" else "stems from"

/-- Python `f"{x}"` for an optional string: `None` renders as `"None"`
(line 397 interpolates a possibly-`None` adjective). -/
def py_fstr : Option String → String
  | some s => s
  | none => "None"

/-- `analysis_themes_dict.get(key, analysis_themes_dict["general"])`
(line 313); every category of the table has a `"general"` theme, so the inner
default is never reached. -/
def theme_or_general (themes : List (String × String)) (key : String) : String :=
  match themes.lookup key with
  | some t => t
  | none => (themes.lookup "general").getD ""

/-- `PROBLEM_CATEGORIES[sec_category]["analysis_themes"].get(sec_analysis_key,
"general")` (line 332): the default here is the literal string `"general"`,
not the general template, exactly as in the source. -/
def theme_or_literal (themes : List (String × String)) (key : String) : String :=
  (themes.lookup key).getD "general"

/-- `template.format(...)` for the analysis templates: substitute each
placeholder occurring in the table's analysis themes. -/
def fmt_analysis (t aspectName probAdj probNoun cen cev : String) : String :=
  pyReplace (pyReplace (pyReplace (pyReplace (pyReplace t
    "{aspect_name}" aspectName) "{problem_adj}" probAdj)
    "{problem_noun}" probNoun) "{cause_or_effect_noun}" cen)
    "{cause_or_effect_verb}" cev

/-- `current_rec_template.format(...)` with the full keyword set (line 384). -/
def fmt_rec (t fixVerb aspectName probAdj probNoun cen cev area act1 : String) :
    String :=
  pyReplace (pyReplace (pyReplace (pyReplace (pyReplace (pyReplace (pyReplace
    (pyReplace t "{fix_verb}" fixVerb) "{aspect_name}" aspectName)
    "{problem_adj}" probAdj) "{problem_noun}" probNoun)
    "{cause_or_effect_noun}" cen) "{cause_or_effect_verb}" cev)
    "{area_of_focus}" area) "{random_action_1}" act1

/-- `current_rec_template.format(...)` with the keyword set of the general-pool
loop (line 418): `fix_verb`, `aspect_name`, `area_of_focus`,
`random_action_1` — the general templates use no other placeholder. -/
def fmt_rec_general (t fixVerb aspectName area act1 : String) : String :=
  pyReplace (pyReplace (pyReplace (pyReplace t "{fix_verb}" fixVerb)
    "{aspect_name}" aspectName) "{area_of_focus}" area) "{random_action_1}" act1

/-- The rendered-and-trimmed secondary analysis text (lines 334-340):
format the theme, then strip the aspect display name (possessive and plain)
and surrounding whitespace. -/
def secondary_text (themes : List (String × String)) (disp : String)
    (t : MatchTuple) : String :=
  pyStrip (pyReplace (pyReplace
    (fmt_analysis (theme_or_literal themes t.key) disp (adj_or_default t.adj)
      (noun_or_default t.noun) (cen_or_default t.cen) (cev_str t.ctype))
    (disp ++ "\x27s ") "") (disp ++ " ") "")

/-- `"Furthermore, " if secondary_patterns_added == 0 else "Additionally, "`
(line 343). -/
def secondary_prefix (count : Nat) : String :=
  if count = 0 then "Furthermore, " else "Additionally, "

/-- The full secondary analysis line appended at line 344. -/
def secondary_line (count : Nat) (txt : String) : String :=
  secondary_prefix count ++ "users also frequently highlight: "
    ++ pyLower txt ++ "."

/-- The secondary-pattern loop (lines 322-346); state is (lines so far, used
outcome keys, secondaries added). A candidate is rendered only if its key is
unused, its adjective and noun are truthy and its category is the dominant
one; the rendered text is appended only if it is not a substring of (nor equal
to) the primary line. -/
def add_secondaries (themes : List (String × String)) (disp line1 domCat : String) :
    List MatchTuple → List String → List String → Nat →
    List String × List String × Nat
  | [], lines, used, count => (lines, used, count)
  | t :: rest, lines, used, count =>
    if 2 ≤ count then (lines, used, count)
    else if !used.contains t.key && py_truthy t.adj && py_truthy t.noun
        && (t.category == domCat) then
      if !strContains line1 (secondary_text themes disp t)
          && !(secondary_text themes disp t == line1) then
        add_secondaries themes disp line1 domCat rest
          (lines ++ [secondary_line count (secondary_text themes disp t)])
          (used ++ [t.key]) (count + 1)
      else add_secondaries themes disp line1 domCat rest lines used count
    else add_secondaries themes disp line1 domCat rest lines used count

/-- The first padding line (lines 348-350). -/
def overall_line (disp : String) (negCount : Nat) : String :=
  "Overall, this indicates a significant area of concern for **" ++ disp
    ++ "**, with " ++ toString negCount
    ++ " negative mentions pointing to these issues."

/-- The second padding line (lines 352-353). -/
def addressing_line (disp : String) : String :=
  "Addressing these identified challenges is crucial for improving overall user satisfaction and perception of **"
    ++ disp ++ "**."

/-- The fixed "diverse feedback" fallback analysis lines (lines 362-365); the
first interpolates the raw aspect name, not the display name. -/
def diverse_lines (aspect_name : String) : List String :=
  ["Negative feedback for **" ++ aspect_name
      ++ "** is diverse, without clear dominant problem phrases or keywords.",
   "A thorough manual review of comments is recommended to uncover the core problems.",
   "Consider implementing more structured feedback collection for this aspect."]

/-- The problem-word fallback analysis lines (lines 356-361). -/
def problem_word_lines (disp : String) (problemWords subjectNouns : List String) :
    List String :=
  ["The primary concern for **" ++ disp ++ "** is its **"
      ++ problemWords.headD "" ++ "** aspect, often related to **"
      ++ (if subjectNouns.isEmpty then "the overall experience"
          else subjectNouns.headD "") ++ "**.",
   "This suggests a need for deeper investigation into the specific instances mentioned by users.",
   "A thorough review of negative feedback for " ++ disp
     ++ " is highly recommended."]

/-- The primary analysis line (lines 313-320). -/
def primary_line (cd : CategoryData) (disp : String) (p : MatchTuple) : String :=
  fmt_analysis (theme_or_general cd.analysis_themes p.key) disp
    (adj_or_default p.adj) (noun_or_default p.noun) (cen_or_default p.cen)
    (cev_str p.ctype)

/-- `if len(analysis_lines) < 3: append overall line` (lines 348-350). -/
def pad3 (disp : String) (negCount : Nat) (lines : List String) : List String :=
  if lines.length < 3 then lines ++ [overall_line disp negCount] else lines

/-- `if len(analysis_lines) < 4: append addressing line` (lines 352-353). -/
def pad4 (disp : String) (lines : List String) : List String :=
  if lines.length < 4 then lines ++ [addressing_line disp] else lines

/-- The analysis-lines construction (lines 296-365). Returns the analysis
lines and, when a primary pattern exists, the dominant category and primary
tuple for the recommendation stage; `none` models the `KeyError` on a category
missing from the table (unreachable for matcher output, which only produces
table categories). -/
def analysis_stage (aspect_name disp : String) (sortedPatterns : List MatchTuple)
    (problemWords subjectNouns : List String) (negCount : Nat) :
    Option (List String × Option (String × MatchTuple)) :=
  match sortedPatterns with
  | [] =>
    if problemWords.isEmpty then some (diverse_lines aspect_name, none)
    else some (problem_word_lines disp problemWords subjectNouns, none)
  | p :: rest =>
    match PROBLEM_CATEGORIES.lookup p.category with
    | none => none
    | some cd =>
      some (pad4 disp (pad3 disp negCount
          (add_secondaries cd.analysis_themes disp (primary_line cd disp p)
            p.category rest [primary_line cd disp p] [p.key] 0).1),
        some (p.category, p))

/-- A list that is not `isEmpty` has positive length. -/
theorem length_pos_of_not_isEmpty {α : Type} {l : List α}
    (h : ¬ l.isEmpty = true) : 0 < l.length := by
  cases l with
  | nil => simp at h
  | cons x xs => simp

/-- The `while added_rec_count < 4 and available_general_recs:` loop
(lines 408-426). The fuel argument (instantiated with the length of the
available list) only makes the recursion structural: every productive
iteration removes the chosen element. The `none` result models the branch
where the chosen template is already in the used set, on which the source
loops forever; it is unreachable because the available pool is kept disjoint
from the used set and the table's templates are pairwise distinct. -/
def general_rec_loop (disp : String) :
    Nat → List Nat → List RecPhrase → List String → Nat → List String →
    Option (List String)
  | 0, _, avail, _, count, acc =>
    if 4 ≤ count then some acc else if avail.isEmpty then some acc else none
  | fuel + 1, rs, avail, used, count, acc =>
    if 4 ≤ count then some acc
    else if h : avail.isEmpty then some acc
    else
      let chosen := avail.get ⟨rs.headD 0 % avail.length,
        Nat.mod_lt _ (length_pos_of_not_isEmpty h)⟩
      if used.contains chosen.template then none
      else
        let fixVerb := pyTitle (py_random_choice (rs.tail.headD 0) ACTION_VERBS "")
        let area := py_random_choice (rs.tail.tail.headD 0) UNIVERSAL_PROBLEMS ""
        let act := if chosen.actions.isEmpty then ""
          else py_random_choice (rs.tail.tail.tail.headD 0) chosen.actions ""
        general_rec_loop disp fuel
          (rs.drop (if chosen.actions.isEmpty then 3 else 4))
          (avail.erase chosen) (chosen.template :: used) (count + 1)
          (acc ++ [fmt_rec_general chosen.template fixVerb disp area act])

/-- The recommendations construction (lines 367-434): `info` is the dominant
category and primary tuple from the analysis stage (`none` when no pattern was
identified, selecting the fixed five-recommendation fallback of lines
429-434); `rs` is the stream of random draws feeding `random.choice`. -/
def recs_stage (disp : String) (info : Option (String × MatchTuple))
    (rs : List Nat) : Option (List String) :=
  match info with
  | none =>
    some ["1. **Conduct a focused root cause analysis** on all negative feedback for this aspect to pinpoint critical areas for improvement.",
      "2. **Implement a structured feedback mechanism** to gather more specific and actionable insights from users.",
      "3. **Prioritize corrective actions** based on the frequency and severity of reported problems to allocate resources effectively.",
      "4. **Engage with key users** who provided negative feedback to validate identified problems and potential solutions.",
      "5. **" ++ pyTitle (py_random_choice (rs.headD 0) ACTION_VERBS "")
        ++ "** an internal workshop with relevant teams to brainstorm solutions for **"
        ++ disp ++ "**\x27s negative perception."]
  | some (domCat, p) =>
    match PROBLEM_CATEGORIES.lookup domCat with
    | none => none
    | some cd =>
      let phrases := cd.recommendation_phrases
      let relevant := phrases.filter (fun r => r.key == some p.key)
      let general := phrases.filter (fun r => r.key == none)
      if hrel : relevant.isEmpty then
        let fixVerb := pyTitle (py_random_choice (rs.headD 0) ACTION_VERBS "")
        let area := py_random_choice (rs.tail.headD 0) UNIVERSAL_PROBLEMS ""
        let tmpl := "1. **" ++ fixVerb
          ++ "** the core issues contributing to the **" ++ py_fstr p.adj
          ++ "** sentiment around **" ++ disp ++ "**, focusing on **"
          ++ area ++ "**."
        let used := if tmpl == "" then [] else [tmpl]
        let avail := general.filter (fun r => !used.contains r.template)
        general_rec_loop disp avail.length (rs.drop 2) avail used 1 [tmpl]
      else
        let chosen := relevant.get ⟨rs.headD 0 % relevant.length,
          Nat.mod_lt _ (length_pos_of_not_isEmpty hrel)⟩
        let fixVerb := pyTitle (py_random_choice (rs.tail.headD 0) ACTION_VERBS "")
        let area := py_random_choice (rs.tail.tail.headD 0) UNIVERSAL_PROBLEMS ""
        let act1 := if chosen.actions.isEmpty then ""
          else py_random_choice (rs.tail.tail.tail.headD 0) chosen.actions ""
        let line := fmt_rec chosen.template fixVerb disp (adj_or_default p.adj)
          (noun_or_default p.noun) (cen_or_default p.cen) (cev_str p.ctype)
          area act1
        let used := if chosen.template == "" then [] else [chosen.template]
        let avail := general.filter (fun r => !used.contains r.template)
        general_rec_loop disp avail.length (rs.drop 4) avail used 1 [line]

/-- `re.match(r'^\d+\.', line.strip())` (line 438): after stripping, one or
more digits followed by a period. -/
def starts_with_num_dot (s : String) : Bool :=
  let t := (pyStrip s).data
  let ds := t.takeWhile Char.isDigit
  !ds.isEmpty &&
    (match t.drop ds.length with
     | c :: _ => c == '.'
     | [] => false)

/-- `line.lstrip('0123456789. ')` (line 439). -/
def py_lstrip_num_dot_space (s : String) : String :=
  ⟨s.data.dropWhile (fun c => c.isDigit || c == '.' || c == ' ')⟩

/-- The re-numbering pass (lines 436-441): lines not starting with an ordinal
are auto-numbered by position. -/
def finalize_rec_lines (lines : List String) : List String :=
  lines.enum.map (fun ie =>
    if starts_with_num_dot ie.2 then ie.2
    else toString (ie.1 + 1) ++ ". " ++ py_lstrip_num_dot_space ie.2)

/-- `generate_dynamic_content_universal` (lines 185-453) downstream of the
external spaCy stage: from the ranked match tuples, the fallback word lists,
the number of negative contexts and the random draws, produce the report
text block (lines 444-453). -/
def generate_dynamic_content_universal (aspect_name : String) (negCount : Nat)
    (sortedPatterns : List MatchTuple) (problemWords subjectNouns : List String)
    (rs : List Nat) : Option String :=
  let disp := pyTitle (pyReplace aspect_name "_" " ")
  match analysis_stage aspect_name disp sortedPatterns problemWords subjectNouns
      negCount with
  | none => none
  | some (analysisLines, info) =>
    match recs_stage disp info rs with
    | none => none
    | some recLines =>
      some ("\n**Analysis Overview:**\n"
        ++ String.intercalate "\n" analysisLines
        ++ "\n\n**Actionable Recommendations:**\n"
        ++ String.intercalate "\n" (finalize_rec_lines recLines) ++ "\n")

/-- Bounds on the secondary-pattern loop: starting from `count ≤ 2`, the final
count stays between `count` and 2 and each added secondary adds exactly one
line. -/
theorem add_secondaries_bounds (themes : List (String × String))
    (disp line1 domCat : String) :
    ∀ (ts : List MatchTuple) (lines used : List String) (count : Nat),
      count ≤ 2 →
      ((add_secondaries themes disp line1 domCat ts lines used count).1.length
          = lines.length
            + ((add_secondaries themes disp line1 domCat ts lines used count).2.2
              - count) ∧
       count ≤ (add_secondaries themes disp line1 domCat ts lines used count).2.2 ∧
       (add_secondaries themes disp line1 domCat ts lines used count).2.2 ≤ 2) := by
  intro ts
  induction ts with
  | nil =>
    intro lines used count hc
    refine ⟨by simp [add_secondaries], by simp [add_secondaries], ?_⟩
    simpa [add_secondaries] using hc
  | cons t rest ih =>
    intro lines used count hc
    rw [add_secondaries]
    split_ifs with h1 h2 h3
    · exact ⟨by simp, le_rfl, hc⟩
    · obtain ⟨ha, hb, hc2⟩ := ih
        (lines ++ [secondary_line count (secondary_text themes disp t)])
        (used ++ [t.key]) (count + 1) (by omega)
      rw [List.length_append] at ha
      refine ⟨?_, by omega, hc2⟩
      rw [ha]
      simp
      omega
    · exact ih lines used count hc
    · exact ih lines used count hc

/-! ## Claim C6 -/

/-- Counterexample to C6: an aspect whose negative pool yields exactly one
pattern match (so a primary line but no secondary lines) gets an analysis
section of exactly 3 lines — the padding steps check `< 3` and then `< 4`, so
starting from one line they stop at 3, not the claimed "at least 4". -/
theorem analysis_lines_cex :
    (analysis_stage "performance" "Performance"
      [⟨"performance_efficiency", "general", some "slow", some "performance",
        none, none⟩] [] [] 5).map (fun pr => pr.1.length) = some 3 ∧
    ¬ (4 ≤ 3) := ⟨by decide, by omega⟩

/-- C6 as amended: for every aspect whose negative-context pool yields a
primary taxonomy pattern match, the analysis section contains at least 3 and
at most 4 lines: the primary line plus up to 2 secondary lines, padded with
the generic closing lines to 3 lines when no secondary line is added and to 4
otherwise. -/
theorem analysis_lines_padded (aspect_name disp : String) (p : MatchTuple)
    (rest : List MatchTuple) (problemWords subjectNouns : List String)
    (negCount : Nat) (cd : CategoryData)
    (hcat : PROBLEM_CATEGORIES.lookup p.category = some cd) :
    ∃ lines info,
      analysis_stage aspect_name disp (p :: rest) problemWords subjectNouns
        negCount = some (lines, info) ∧
      3 ≤ lines.length ∧ lines.length ≤ 4 := by
  obtain ⟨ha, hb, hc⟩ := add_secondaries_bounds cd.analysis_themes disp
    (primary_line cd disp p) p.category rest [primary_line cd disp p] [p.key] 0
    (by omega)
  have heq : analysis_stage aspect_name disp (p :: rest) problemWords
      subjectNouns negCount
      = some (pad4 disp (pad3 disp negCount
          (add_secondaries cd.analysis_themes disp (primary_line cd disp p)
            p.category rest [primary_line cd disp p] [p.key] 0).1),
        some (p.category, p)) := by
    simp only [analysis_stage, hcat]
  refine ⟨_, _, heq, ?_, ?_⟩ <;>
  · rw [pad4, pad3]
    split_ifs <;>
      simp only [List.length_append, List.length_cons, List.length_nil] at * <;>
      omega

/-- Witness for C6 (amended) at a concrete single-match pool. -/
theorem analysis_lines_padded_witness :
    ∃ lines info,
      analysis_stage "support" "Support"
        [⟨"service_quality", "service_cause", some "unhelpful", some "support",
          some "training", some "cause"⟩] [] [] 3 = some (lines, info) ∧
      3 ≤ lines.length ∧ lines.length ≤ 4 :=
  analysis_lines_padded "support" "Support"
    ⟨"service_quality", "service_cause", some "unhelpful", some "support",
      some "training", some "cause"⟩ [] [] [] 3 service_quality_cat rfl

/-! ## Claim C7 -/

/-- Totality of the general-recommendation loop: when the available pool is
disjoint from the used set and its templates are pairwise distinct, the loop
never reaches the stuck branch. -/
theorem general_rec_loop_isSome (disp : String) :
    ∀ (fuel : Nat) (rs : List Nat) (avail : List RecPhrase) (used : List String)
      (count : Nat) (acc : List String),
      avail.length ≤ fuel →
      (∀ t ∈ avail, t.template ∉ used) →
      (avail.map RecPhrase.template).Nodup →
      (general_rec_loop disp fuel rs avail used count acc).isSome := by
  intro fuel
  induction fuel with
  | zero =>
    intro rs avail used count acc hfuel hdisj hnd
    have hnil : avail = [] := List.length_eq_zero.mp (Nat.le_zero.mp hfuel)
    subst hnil
    rw [general_rec_loop]
    split <;> simp
  | succ n ih =>
    intro rs avail used count acc hfuel hdisj hnd
    rw [general_rec_loop]
    by_cases h4 : 4 ≤ count
    · rw [if_pos h4]; simp
    · rw [if_neg h4]
      by_cases he : avail.isEmpty
      · rw [dif_pos he]; simp
      · rw [dif_neg he]
        have hlt : rs.headD 0 % avail.length < avail.length :=
          Nat.mod_lt _ (length_pos_of_not_isEmpty he)
        have hmem : avail.get ⟨rs.headD 0 % avail.length, hlt⟩ ∈ avail :=
          List.get_mem _ _ _
        have hnotused :
            (avail.get ⟨rs.headD 0 % avail.length, hlt⟩).template ∉ used :=
          hdisj _ hmem
        rw [if_neg (by simpa using hnotused)]
        apply ih
        · have := List.length_erase_of_mem hmem
          omega
        · intro t ht
          have htav : t ∈ avail := List.mem_of_mem_erase ht
          have htne : t ≠ avail.get ⟨rs.headD 0 % avail.length, hlt⟩ :=
            ((List.Nodup.mem_erase_iff (List.Nodup.of_map _ hnd)).mp ht).1
          intro hcontra
          rcases List.mem_cons.mp hcontra with hx | hx
          · exact htne (List.inj_on_of_nodup_map hnd htav hmem hx)
          · exact hdisj t htav hx
        · exact List.Nodup.sublist
            ((List.erase_sublist _ _).map RecPhrase.template) hnd

/-- A successful category lookup returns one of the five table entries. -/
theorem lookup_category_cases (name : String) (cd : CategoryData)
    (h : PROBLEM_CATEGORIES.lookup name = some cd) :
    cd = performance_efficiency_cat ∨ cd = cost_value_cat ∨
    cd = usability_complexity_cat ∨ cd = service_quality_cat ∨
    cd = product_content_quality_cat := by
  simp only [PROBLEM_CATEGORIES, List.lookup] at h
  repeat' split at h
  · exact Or.inl (Option.some.inj h).symm
  · exact Or.inr (Or.inl (Option.some.inj h).symm)
  · exact Or.inr (Or.inr (Or.inl (Option.some.inj h).symm))
  · exact Or.inr (Or.inr (Or.inr (Or.inl (Option.some.inj h).symm)))
  · exact Or.inr (Or.inr (Or.inr (Or.inr (Option.some.inj h).symm)))
  · exact absurd h (by simp)

/-- Every category of the table has pairwise-distinct recommendation
templates. -/
theorem templates_nodup_of_lookup (name : String) (cd : CategoryData)
    (h : PROBLEM_CATEGORIES.lookup name = some cd) :
    ((cd.recommendation_phrases).map RecPhrase.template).Nodup := by
  rcases lookup_category_cases name cd h with rfl | rfl | rfl | rfl | rfl <;> decide

/-- Elements surviving the `rec[1] not in used_rec_templates` filter have
templates outside the used set. -/
theorem filter_template_disjoint (used : List String) (l : List RecPhrase) :
    ∀ t ∈ l.filter (fun r => !used.contains r.template), t.template ∉ used := by
  intro t ht
  have h := List.of_mem_filter ht
  simpa using h

/-- The available general pool inherits template distinctness from the
category's phrase list. -/
theorem avail_templates_nodup (cd : CategoryData) (used : List String)
    (h : ((cd.recommendation_phrases).map RecPhrase.template).Nodup) :
    (((cd.recommendation_phrases.filter (fun r => r.key == none)).filter
        (fun r => !used.contains r.template)).map RecPhrase.template).Nodup :=
  List.Nodup.sublist
    (((List.filter_sublist _).trans (List.filter_sublist _)).map
      RecPhrase.template) h

/-- The recommendation stage always produces a result when the dominant
category is in the table. -/
theorem recs_stage_isSome (disp domCat : String) (p : MatchTuple) (rs : List Nat)
    (cd : CategoryData) (hcat : PROBLEM_CATEGORIES.lookup domCat = some cd) :
    (recs_stage disp (some (domCat, p)) rs).isSome := by
  have hnd := templates_nodup_of_lookup domCat cd hcat
  simp only [recs_stage, hcat]
  by_cases hrel :
      (cd.recommendation_phrases.filter (fun r => r.key == some p.key)).isEmpty
  · rw [dif_pos hrel]
    apply general_rec_loop_isSome
    · exact le_refl _
    · exact filter_template_disjoint _ _
    · exact avail_templates_nodup cd _ hnd
  · rw [dif_neg hrel]
    apply general_rec_loop_isSome
    · exact le_refl _
    · exact filter_template_disjoint _ _
    · exact avail_templates_nodup cd _ hnd

/-- A string ending in a newline is nonempty. -/
theorem append_newline_ne_empty (x : String) : x ++ "\n" ≠ "" := by
  intro h
  have h2 := congrArg String.data h
  rw [String.data_append] at h2
  simp at h2

/-- C7: for every aspect name, every matcher output (whose tuples carry table
categories, as the matcher guarantees by construction), every fallback word
list — including the empty negative-context pool, which yields no tuples and
no problem words — and every random stream, the synthesizer returns normally
(`some`, never the modelled error/divergence branches) with a nonempty report;
and when no taxonomy pattern matched and no problem words were found it emits
exactly the fixed "diverse feedback" analysis lines and the fixed five-entry
fallback recommendation list. -/
theorem synthesizer_total_and_fallback (aspect_name : String) (negCount : Nat)
    (sortedPatterns : List MatchTuple) (problemWords subjectNouns : List String)
    (rs : List Nat)
    (hcats : ∀ t ∈ sortedPatterns, (PROBLEM_CATEGORIES.lookup t.category).isSome) :
    ((generate_dynamic_content_universal aspect_name negCount sortedPatterns
        problemWords subjectNouns rs).isSome ∧
     ∀ out, generate_dynamic_content_universal aspect_name negCount
        sortedPatterns problemWords subjectNouns rs = some out → out ≠ "") ∧
    (sortedPatterns = [] → problemWords = [] →
      analysis_stage aspect_name (pyTitle (pyReplace aspect_name "_" " "))
          sortedPatterns problemWords subjectNouns negCount
        = some (diverse_lines aspect_name, none) ∧
      ∃ recs, recs_stage (pyTitle (pyReplace aspect_name "_" " ")) none rs
          = some recs ∧ recs.length = 5) := by
  have hana : ∃ lines info,
      analysis_stage aspect_name (pyTitle (pyReplace aspect_name "_" " "))
        sortedPatterns problemWords subjectNouns negCount = some (lines, info) ∧
      (info = none ∨ ∃ domCat p cd, info = some (domCat, p) ∧
        PROBLEM_CATEGORIES.lookup domCat = some cd) := by
    cases sortedPatterns with
    | nil =>
      by_cases hpw : problemWords.isEmpty
      · exact ⟨diverse_lines aspect_name, none,
          by simp [analysis_stage, hpw], Or.inl rfl⟩
      · exact ⟨problem_word_lines (pyTitle (pyReplace aspect_name "_" " "))
            problemWords subjectNouns, none,
          by simp [analysis_stage, hpw], Or.inl rfl⟩
    | cons p rest =>
      obtain ⟨cd, hcd⟩ := Option.isSome_iff_exists.mp
        (hcats p (List.mem_cons_self p rest))
      refine ⟨pad4 (pyTitle (pyReplace aspect_name "_" " "))
          (pad3 (pyTitle (pyReplace aspect_name "_" " ")) negCount
            (add_secondaries cd.analysis_themes
              (pyTitle (pyReplace aspect_name "_" " "))
              (primary_line cd (pyTitle (pyReplace aspect_name "_" " ")) p)
              p.category rest
              [primary_line cd (pyTitle (pyReplace aspect_name "_" " ")) p]
              [p.key] 0).1),
        some (p.category, p), ?_, Or.inr ⟨p.category, p, cd, rfl, hcd⟩⟩
      simp only [analysis_stage, hcd]
  obtain ⟨lines, info, heq, hinfo⟩ := hana
  have hrecs : (recs_stage (pyTitle (pyReplace aspect_name "_" " ")) info rs).isSome := by
    rcases hinfo with rfl | ⟨domCat, p, cd, rfl, hcd⟩
    · simp [recs_stage]
    · exact recs_stage_isSome _ domCat p rs cd hcd
  obtain ⟨recs, hre⟩ := Option.isSome_iff_exists.mp hrecs
  have hgen : generate_dynamic_content_universal aspect_name negCount
      sortedPatterns problemWords subjectNouns rs
      = some ("\n**Analysis Overview:**\n"
        ++ String.intercalate "\n" lines
        ++ "\n\n**Actionable Recommendations:**\n"
        ++ String.intercalate "\n" (finalize_rec_lines recs) ++ "\n") := by
    simp only [generate_dynamic_content_universal, heq, hre]
  refine ⟨⟨by rw [hgen]; rfl, ?_⟩, ?_⟩
  · intro out hout
    rw [hgen] at hout
    rw [← Option.some.inj hout]
    exact append_newline_ne_empty _
  · intro h1 h2
    subst h1
    subst h2
    exact ⟨rfl, ⟨_, rfl, rfl⟩⟩

/-- Witness for C7 at a concrete empty matcher output (no pattern match, no
problem words — the empty negative-context pool). -/
theorem synthesizer_total_and_fallback_witness :
    ((generate_dynamic_content_universal "food_quality" 2 [] [] [] [3]).isSome ∧
     ∀ out, generate_dynamic_content_universal "food_quality" 2 [] [] [] [3]
        = some out → out ≠ "") ∧
    (([] : List MatchTuple) = [] → ([] : List String) = [] →
      analysis_stage "food_quality" (pyTitle (pyReplace "food_quality" "_" " "))
          [] [] [] 2 = some (diverse_lines "food_quality", none) ∧
      ∃ recs, recs_stage (pyTitle (pyReplace "food_quality" "_" " ")) none [3]
          = some recs ∧ recs.length = 5) :=
  synthesizer_total_and_fallback "food_quality" 2 [] [] [] [3] (by simp)
